import Mathlib

/-!
Shallow embedding of `app.py` from the web-page-topic-modeling repository:
a single Flask route `POST /analyze` that validates a JSON payload, runs the
text through the spaCy pipeline (external, modelled as an opaque function
that either returns its structured output or raises), filters noun chunks
and named entities into a flat candidate list, counts occurrences and
returns at most 7 ranked keywords.

Modelling conventions:
- Python strings are Lean `String`s (ASCII fragment; `str.lower` is modelled
  by mapping `Char.toLower`, which lowers exactly the ASCII letters).
- `dict` payloads are association lists, JSON values a small `PyValue` type.
- Python truthiness (`not text_to_analyze`) is `PyValue.truthy`.
- The spaCy call and any exception inside the `try` block is modelled by the
  pipeline parameter returning `Except String Doc`; the `except` clause is
  the `.error` branch.
- `Counter(potential_keywords).most_common(10)` is a stable descending sort
  of the key/count pairs (keys in first-occurrence order, as for a Python
  dict) truncated to 10, which is CPython's documented behaviour.
- `list(set(top_keywords))` has an implementation-defined but fixed-per-run
  iteration order; it is modelled by first-occurrence deduplication, one
  deterministic choice of that order (the ranker re-sorts by count anyway,
  so only the order among equal counts depends on this choice).
-/

namespace WebTopic

/-- Minimal model of a JSON / Python value as found in a request payload. -/
inductive PyValue where
  | pyStr (s : String)
  | pyInt (n : Int)
  | pyBool (b : Bool)
  | pyNone
  | pyList (xs : List String)
deriving DecidableEq

/-- Python truthiness of a value, as used by `if not text_to_analyze`. -/
def PyValue.truthy : PyValue → Bool
  | .pyStr s => !(s == "")
  | .pyInt n => !(n == 0)
  | .pyBool b => b
  | .pyNone => false
  | .pyList xs => !xs.isEmpty

/-- Model of `isinstance(v, str)`. -/
def PyValue.isStr : PyValue → Bool
  | .pyStr _ => true
  | _ => false

/-- The underlying string of a string value (only ever reached after the
`isinstance` check short-circuits, so the default is irrelevant). -/
def PyValue.getStr : PyValue → String
  | .pyStr s => s
  | _ => ""

/-- Model of Python `str.lower()` (ASCII letters). -/
def pyLower (s : String) : String := ⟨s.data.map Char.toLower⟩

/-- Drop the longest suffix all of whose characters satisfy `p`. -/
def dropEndWhile (p : Char → Bool) (l : List Char) : List Char :=
  (l.reverse.dropWhile p).reverse

/-- The characters stripped by `.strip(" .,;:!?-()[]\x7b\x7d'\"")` in the
source (space, period, comma, semicolon, colon, exclamation, question mark,
hyphen, parentheses, brackets, braces, single and double quote). -/
def stripChars : List Char :=
  [' ', '.', ',', ';', ':', '!', '?', '-', '(', ')', '[', ']',
   '\x7b', '\x7d', '\'', '\"']

/-- Model of `s.lower().strip(" .,;:!?-()[]\x7b\x7d'\"")`: lowercase, then
remove leading and trailing characters from the fixed strip set. -/
def cleanText (s : String) : String :=
  ⟨dropEndWhile (stripChars.contains ·)
    ((pyLower s).data.dropWhile (stripChars.contains ·))⟩

/-- Python whitespace characters recognised by argument-free `str.strip()`. -/
def isPySpace (c : Char) : Bool :=
  c == ' ' || c == '\t' || c == '\n' || c == '\r' || c == '\x0b' || c == '\x0c'

/-- Model of argument-free `str.strip()`: remove leading and trailing
whitespace. -/
def pyStrip (s : String) : String :=
  ⟨dropEndWhile isPySpace (s.data.dropWhile isPySpace)⟩

/-- Model of `str.isdigit()`: non-empty and every character a digit. -/
def pyIsDigit (s : String) : Bool :=
  !s.data.isEmpty && s.data.all (·.isDigit)

/-- Number of occurrences of `k` in `l`, i.e. `Counter(l)[k]`. -/
def countOcc (l : List String) (k : String) : Nat :=
  (l.filter (· == k)).length

/-- Per-token attributes of a spaCy token that the route inspects. -/
structure SpacyToken where
  is_stop : Bool
  is_punct : Bool
  is_space : Bool
deriving DecidableEq

/-- One noun-chunk span of the spaCy document: its text and its tokens. -/
structure NounChunk where
  text : String
  tokens : List SpacyToken
deriving DecidableEq

/-- One named-entity span of the spaCy document: its text and its label. -/
structure SpacyEnt where
  text : String
  label : String
deriving DecidableEq

/-- The structured output of the (external) spaCy pipeline for one text. -/
structure Doc where
  noun_chunks : List NounChunk
  ents : List SpacyEnt
deriving DecidableEq

/-- The fixed custom stop-word set of `app.py` (a Python `set`; only
membership is ever used, so a list with `∈` is a faithful model). -/
def CUSTOM_STOP_WORDS : List String :=
  ["page", "site", "website", "article", "content", "information", "click",
   "view", "menu", "home", "search", "contact", "news", "post", "blog",
   "comment", "read", "more", "share", "like", "follow", "also", "however",
   "therefore", "example", "e.g.", "i.e.", "etc", "fig", "image", "photo",
   "video", "copyright", "rights", "reserved", "terms", "privacy", "policy",
   "subscribe", "login", "logout", "register", "account", "learn", "help",
   "faq", "support", "services", "products", "company", "about", "us",
   "welcome", "thank", "thanks", "nbsp", "amp", "quot", "apos", "lt", "gt"]

/-- The fixed set of entity labels the route keeps. -/
def relevant_entity_labels : List String :=
  ["ORG", "PRODUCT", "EVENT", "WORK_OF_ART", "LOC", "PERSON", "NORP",
   "GPE", "FACILITY"]

/-- The inner loop over a chunk's tokens: at least one token is neither a
pipeline stop word, nor punctuation, nor whitespace. -/
def is_meaningful (c : NounChunk) : Bool :=
  c.tokens.any (fun t => !t.is_stop && !t.is_punct && !t.is_space)

/-- Acceptance test applied to one noun chunk (lines 56-65 of `app.py`):
the cleaned text is kept iff it is longer than 3 characters, not a custom
stop word, not all digits, and the chunk has a meaningful token. -/
def chunkAccepted (c : NounChunk) : Bool :=
  let clean_chunk := cleanText c.text
  decide (clean_chunk.length > 3) && !(CUSTOM_STOP_WORDS.contains clean_chunk)
    && !(pyIsDigit clean_chunk) && is_meaningful c

/-- Acceptance test applied to one entity span (lines 72-75 of `app.py`):
relevant label, cleaned text longer than 2 characters, not a custom stop
word, not all digits. -/
def entAccepted (e : SpacyEnt) : Bool :=
  relevant_entity_labels.contains e.label
    && (decide ((cleanText e.text).length > 2)
        && !(CUSTOM_STOP_WORDS.contains (cleanText e.text))
        && !(pyIsDigit (cleanText e.text)))

/-- The flat candidate list built by the two `for` loops: cleaned texts of
accepted noun chunks, then cleaned texts of accepted entities, duplicates
included. -/
def potential_keywords (doc : Doc) : List String :=
  (doc.noun_chunks.filter chunkAccepted).map (fun c => cleanText c.text)
    ++ (doc.ents.filter entAccepted).map (fun e => cleanText e.text)

/-- First-occurrence deduplication (the key order of `Counter`/`dict`, and
our fixed model of `set` iteration order). `seen` accumulates keys already
emitted. -/
def dedupGo : List String → List String → List String
  | [], _ => []
  | x :: xs, seen =>
      if seen.contains x then dedupGo xs seen else x :: dedupGo xs (x :: seen)

/-- Deduplicate a list keeping the first occurrence of each string. -/
def dedupFirst (l : List String) : List String := dedupGo l []

/-- Stable insertion step of a descending sort by `key`: `x` is placed
before the first element whose key is not larger, so elements with equal
keys keep their relative order. -/
def insertDescBy (key : α → Nat) (x : α) : List α → List α
  | [] => [x]
  | y :: ys => if key x < key y then y :: insertDescBy key x ys else x :: y :: ys

/-- Stable sort by `key`, largest first. -/
def sortDescBy (key : α → Nat) : List α → List α
  | [] => []
  | x :: xs => insertDescBy key x (sortDescBy key xs)

/-- `Counter(l)` as an association list: keys in first-occurrence order,
each with its count. -/
def keyword_counts (l : List String) : List (String × Nat) :=
  (dedupFirst l).map (fun k => (k, countOcc l k))

/-- `Counter(l).most_common(n)`: the key/count pairs sorted by count
descending (stable, so ties keep first-insertion order), truncated to `n`. -/
def most_common (l : List String) (n : Nat) : List (String × Nat) :=
  (sortDescBy (fun p => p.2) (keyword_counts l)).take n

/-- Line 84 of `app.py`: the keys of the 10 most common entries whose count
is at least 1. -/
def top_keywords (l : List String) : List String :=
  ((most_common l 10).filter (fun p => 1 ≤ p.2)).map Prod.fst

/-- Line 87 of `app.py`: `sorted(list(set(top_keywords)), key=lambda x:
keyword_counts[x], reverse=True)[:7]` — deduplicate, re-sort by count
descending, keep at most 7. -/
def unique_top_keywords (l : List String) : List String :=
  (sortDescBy (fun x => countOcc l x) (dedupFirst (top_keywords l))).take 7

/-- The HTTP response of the route: an error status with its message, or a
200 with the keyword list and the optional informational message. -/
inductive Response where
  | error (status : Nat) (msg : String)
  | keywords (kws : List String) (message : Option String)
deriving DecidableEq

/-- The `/analyze` route handler (lines 35-97 of `app.py`). `nlp` is the
external spaCy pipeline: `.ok` is its structured document output, `.error`
models any exception raised inside the `try` block, carrying `str(e)`.
`payload` is the parsed JSON object; `not request.json or 'text' not in
request.json` holds exactly when the lookup fails (an empty dict is falsy
and also has no key). -/
def analyze_text_route (nlp : String → Except String Doc)
    (payload : List (String × PyValue)) : Response :=
  match payload.lookup "text" with
  | none => .error 400 "Missing 'text' in JSON payload"
  | some text_to_analyze =>
    if !text_to_analyze.truthy || !text_to_analyze.isStr
        || decide ((pyStrip text_to_analyze.getStr).length < 50) then
      .error 400 "Text is too short or invalid."
    else
      match nlp text_to_analyze.getStr with
      | .error e => .error 500 ("An internal error occurred during analysis: " ++ e)
      | .ok doc =>
        let pk := potential_keywords doc
        if pk.isEmpty then
          .keywords [] (some "No significant keywords found after NLP processing.")
        else
          let unique_top := unique_top_keywords pk
          if unique_top.isEmpty then
            .keywords [] (some "Keywords found but did not meet frequency or uniqueness criteria.")
          else
            .keywords unique_top none

/-! ### Character and string lemmas -/

/-- Evaluating `Char.ofNat` at a valid code point recovers the code point. -/
theorem toNat_ofNat_valid (n : Nat) (h : Nat.isValidChar n) :
    (Char.ofNat n).toNat = n := by
  simp [Char.ofNat, h, Char.ofNatAux, Char.toNat, UInt32.toNat, BitVec.toNat_ofNatLt]

/-- Lowercasing a character twice is the same as lowercasing it once. -/
theorem char_toLower_idem (c : Char) : c.toLower.toLower = c.toLower := by
  by_cases h : c.toNat ≥ 65 ∧ c.toNat ≤ 90
  · have hv : Nat.isValidChar (c.toNat + 32) := by left; omega
    have h1 : Char.toLower c = Char.ofNat (c.toNat + 32) := by
      rw [Char.toLower, if_pos h]
    rw [h1, Char.toLower, toNat_ofNat_valid _ hv, if_neg (by omega)]
  · have h1 : Char.toLower c = c := by rw [Char.toLower, if_neg h]
    rw [h1, h1]

/-- Every character of a cleaned string is a character of the lowercased
string it was cut from. -/
theorem mem_of_mem_cleanText (s : String) (c : Char)
    (h : c ∈ (cleanText s).data) : c ∈ (pyLower s).data := by
  have h1 : (cleanText s).data =
      dropEndWhile (stripChars.contains ·)
        ((pyLower s).data.dropWhile (stripChars.contains ·)) := rfl
  rw [h1, dropEndWhile] at h
  rw [List.mem_reverse] at h
  have h2 := (List.dropWhile_sublist _).mem h
  rw [List.mem_reverse] at h2
  exact (List.dropWhile_sublist _).mem h2

/-- A cleaned string is already lowercase: `pyLower` fixes it. -/
theorem pyLower_cleanText (s : String) :
    pyLower (cleanText s) = cleanText s := by
  have h : ∀ c ∈ (cleanText s).data, Char.toLower c = c := by
    intro c hc
    have h1 := mem_of_mem_cleanText s c hc
    rw [pyLower] at h1
    obtain ⟨d, _, hd2⟩ := List.mem_map.mp h1
    rw [← hd2]
    exact char_toLower_idem d
  show String.mk ((cleanText s).data.map Char.toLower) = cleanText s
  rw [List.map_congr_left h]
  simp

/-! ### Deduplication lemmas -/

/-- Membership in the deduplication worker: an element is emitted iff it
occurs in the remaining input and has not been seen yet. -/
theorem mem_dedupGo (l : List String) :
    ∀ (seen : List String) (x : String),
      x ∈ dedupGo l seen ↔ x ∈ l ∧ seen.contains x = false := by
  induction l with
  | nil => intro seen x; simp [dedupGo]
  | cons y ys ih =>
    intro seen x
    by_cases hc : seen.contains y = true
    · rw [dedupGo, if_pos hc, ih]
      constructor
      · rintro ⟨h1, h2⟩
        exact ⟨List.mem_cons_of_mem y h1, h2⟩
      · rintro ⟨h1, h2⟩
        rcases List.mem_cons.mp h1 with h1 | h1
        · subst h1; rw [hc] at h2; cases h2
        · exact ⟨h1, h2⟩
    · rw [dedupGo, if_neg hc]
      rw [List.mem_cons, ih]
      simp only [List.contains_cons] at *
      constructor
      · rintro (h1 | ⟨h1, h2⟩)
        · subst h1
          exact ⟨List.mem_cons_self _ _, by simpa using hc⟩
        · simp only [Bool.or_eq_false_iff] at h2
          exact ⟨List.mem_cons_of_mem y h1, h2.2⟩
      · rintro ⟨h1, h2⟩
        rcases List.mem_cons.mp h1 with h1 | h1
        · exact Or.inl h1
        · by_cases hxy : x = y
          · exact Or.inl hxy
          · refine Or.inr ⟨h1, ?_⟩
            simp only [Bool.or_eq_false_iff]
            exact ⟨by simpa using hxy, h2⟩

/-- The deduplication worker emits no duplicates. -/
theorem nodup_dedupGo (l : List String) :
    ∀ seen : List String, (dedupGo l seen).Nodup := by
  induction l with
  | nil => intro seen; simp [dedupGo]
  | cons y ys ih =>
    intro seen
    by_cases hc : seen.contains y = true
    · rw [dedupGo, if_pos hc]; exact ih seen
    · rw [dedupGo, if_neg hc]
      refine List.nodup_cons.mpr ⟨?_, ih (y :: seen)⟩
      intro hmem
      have h := (mem_dedupGo ys (y :: seen) y).mp hmem
      simp [List.contains_cons] at h

/-- Membership survives first-occurrence deduplication, both ways. -/
theorem mem_dedupFirst (l : List String) (x : String) :
    x ∈ dedupFirst l ↔ x ∈ l := by
  rw [dedupFirst, mem_dedupGo]
  exact ⟨fun h => h.1, fun h => ⟨h, rfl⟩⟩

/-- First-occurrence deduplication yields a list without duplicates. -/
theorem nodup_dedupFirst (l : List String) : (dedupFirst l).Nodup :=
  nodup_dedupGo l []

/-- Deduplicating a non-empty list yields a non-empty list. -/
theorem dedupFirst_ne_nil (l : List String) (h : l ≠ []) :
    dedupFirst l ≠ [] := by
  cases l with
  | nil => cases h rfl
  | cons x xs =>
    rw [dedupFirst, dedupGo]
    simp [List.contains]

/-! ### Sorting lemmas -/

/-- Inserting into a list is a permutation of consing onto it. -/
theorem perm_insertDescBy (key : α → Nat) (x : α) (l : List α) :
    (insertDescBy key x l).Perm (x :: l) := by
  induction l with
  | nil => exact List.Perm.refl _
  | cons y ys ih =>
    rw [insertDescBy]
    by_cases h : key x < key y
    · rw [if_pos h]
      exact (ih.cons y).trans (List.Perm.swap x y ys)
    · rw [if_neg h]

/-- The stable descending sort permutes its input. -/
theorem perm_sortDescBy (key : α → Nat) (l : List α) :
    (sortDescBy key l).Perm l := by
  induction l with
  | nil => exact List.Perm.refl _
  | cons x xs ih =>
    rw [sortDescBy]
    exact (perm_insertDescBy key x (sortDescBy key xs)).trans (ih.cons x)

/-- Membership is preserved by the sort. -/
theorem mem_sortDescBy (key : α → Nat) (l : List α) (x : α) :
    x ∈ sortDescBy key l ↔ x ∈ l :=
  (perm_sortDescBy key l).mem_iff

/-- Inserting into a list sorted in non-increasing key order keeps it
sorted. -/
theorem pairwise_insertDescBy (key : α → Nat) (x : α) (l : List α)
    (h : l.Pairwise (fun a b => key b ≤ key a)) :
    (insertDescBy key x l).Pairwise (fun a b => key b ≤ key a) := by
  induction l with
  | nil => simp [insertDescBy]
  | cons y ys ih =>
    rw [insertDescBy]
    rw [List.pairwise_cons] at h
    by_cases hlt : key x < key y
    · rw [if_pos hlt]
      rw [List.pairwise_cons]
      refine ⟨?_, ih h.2⟩
      intro b hb
      rw [(perm_insertDescBy key x ys).mem_iff, List.mem_cons] at hb
      rcases hb with hb | hb
      · subst hb; exact Nat.le_of_lt hlt
      · exact h.1 b hb
    · rw [if_neg hlt]
      rw [List.pairwise_cons]
      refine ⟨?_, List.pairwise_cons.mpr h⟩
      intro b hb
      rcases List.mem_cons.mp hb with hb | hb
      · subst hb; omega
      · exact Nat.le_trans (h.1 b hb) (by omega)

/-- The sort's output is in non-increasing key order. -/
theorem pairwise_sortDescBy (key : α → Nat) (l : List α) :
    (sortDescBy key l).Pairwise (fun a b => key b ≤ key a) := by
  induction l with
  | nil => simp [sortDescBy]
  | cons x xs ih =>
    rw [sortDescBy]
    exact pairwise_insertDescBy key x _ ih

/-! ### Counting and ranking lemmas -/

/-- Every member of a list is counted at least once. -/
theorem countOcc_pos_of_mem (l : List String) (x : String) (h : x ∈ l) :
    1 ≤ countOcc l x := by
  have h1 : x ∈ l.filter (· == x) := List.mem_filter.mpr ⟨h, by simp⟩
  have h2 : l.filter (· == x) ≠ [] := List.ne_nil_of_mem h1
  rw [countOcc]
  cases hf : l.filter (· == x) with
  | nil => cases h2 hf
  | cons a as => simp

/-- Every entry of the counter is a key of the input with its count. -/
theorem mem_keyword_counts (l : List String) (p : String × Nat)
    (h : p ∈ keyword_counts l) : p.1 ∈ l ∧ p.2 = countOcc l p.1 := by
  rw [keyword_counts] at h
  obtain ⟨k, hk, hkp⟩ := List.mem_map.mp h
  rw [← hkp]
  exact ⟨(mem_dedupFirst l k).mp hk, rfl⟩

/-- Every entry of `most_common` is an entry of the counter. -/
theorem mem_most_common (l : List String) (n : Nat) (p : String × Nat)
    (h : p ∈ most_common l n) : p ∈ keyword_counts l := by
  rw [most_common] at h
  have h1 := (List.take_sublist _ _).mem h
  rwa [mem_sortDescBy] at h1

/-- Every count reported by `most_common` is at least 1, so the explicit
`count >= 1` filter on line 84 keeps everything. -/
theorem most_common_counts_pos (l : List String) (n : Nat) (p : String × Nat)
    (h : p ∈ most_common l n) : 1 ≤ p.2 := by
  obtain ⟨h1, h2⟩ := mem_keyword_counts l p (mem_most_common l n p h)
  rw [h2]
  exact countOcc_pos_of_mem l p.1 h1

/-- The `count >= 1` filter is a no-op: `top_keywords` is just the keys of
the 10 most common entries. -/
theorem top_keywords_eq (l : List String) :
    top_keywords l = (most_common l 10).map Prod.fst := by
  rw [top_keywords, List.filter_eq_self.mpr]
  intro p hp
  simpa using most_common_counts_pos l 10 p hp

/-- Every top keyword occurs in the candidate list. -/
theorem mem_top_keywords (l : List String) (x : String)
    (h : x ∈ top_keywords l) : x ∈ l := by
  rw [top_keywords_eq] at h
  obtain ⟨p, hp, hpx⟩ := List.mem_map.mp h
  rw [← hpx]
  exact (mem_keyword_counts l p (mem_most_common l 10 p hp)).1

/-- Every returned keyword occurs in the candidate list. -/
theorem mem_unique_top_keywords (l : List String) (x : String)
    (h : x ∈ unique_top_keywords l) : x ∈ l := by
  rw [unique_top_keywords] at h
  have h1 := (List.take_sublist _ _).mem h
  rw [mem_sortDescBy, mem_dedupFirst] at h1
  exact mem_top_keywords l x h1

/-- Sorting a non-empty list yields a non-empty list. -/
theorem sortDescBy_ne_nil (key : α → Nat) (l : List α) (h : l ≠ []) :
    sortDescBy key l ≠ [] := by
  intro hc
  have h1 := (perm_sortDescBy key l).length_eq
  rw [hc] at h1
  exact h (List.length_eq_zero.mp h1.symm)

/-- Taking a positive number of elements of a non-empty list yields a
non-empty list. -/
theorem take_ne_nil_of_ne_nil {α : Type _} (n : Nat) (l : List α)
    (hn : n ≠ 0) (h : l ≠ []) : l.take n ≠ [] := by
  cases l with
  | nil => cases h rfl
  | cons x xs =>
    cases n with
    | zero => cases hn rfl
    | succ m => simp

/-- A non-empty candidate list yields a non-empty `top_keywords` list. -/
theorem top_keywords_ne_nil (l : List String) (h : l ≠ []) :
    top_keywords l ≠ [] := by
  rw [top_keywords_eq]
  intro hc
  rw [List.map_eq_nil_iff] at hc
  have hkc : keyword_counts l ≠ [] := by
    rw [keyword_counts]
    intro hkc
    rw [List.map_eq_nil_iff] at hkc
    exact dedupFirst_ne_nil l h hkc
  exact take_ne_nil_of_ne_nil 10 _ (by decide) (sortDescBy_ne_nil _ _ hkc) hc

/-- A non-empty candidate list yields a non-empty final keyword list: the
second empty-result branch of the route cannot fire. -/
theorem unique_top_keywords_ne_nil (l : List String) (h : l ≠ []) :
    unique_top_keywords l ≠ [] := by
  rw [unique_top_keywords]
  exact take_ne_nil_of_ne_nil 7 _ (by decide)
    (sortDescBy_ne_nil _ _ (dedupFirst_ne_nil _ (top_keywords_ne_nil l h)))

/-- The returned keyword list has no duplicates. -/
theorem nodup_unique_top_keywords (l : List String) :
    (unique_top_keywords l).Nodup := by
  rw [unique_top_keywords]
  exact List.Nodup.sublist (List.take_sublist _ _)
    ((perm_sortDescBy _ _).symm.nodup (nodup_dedupFirst _))

/-- The returned keyword list has at most 7 entries. -/
theorem length_unique_top_keywords_le (l : List String) :
    (unique_top_keywords l).length ≤ 7 := by
  rw [unique_top_keywords, List.length_take]
  exact min_le_left 7 _

/-- The returned keyword list is ordered by candidate-list occurrence count,
non-increasing. -/
theorem pairwise_unique_top_keywords (l : List String) :
    (unique_top_keywords l).Pairwise
      (fun a b => countOcc l b ≤ countOcc l a) := by
  rw [unique_top_keywords]
  exact List.Pairwise.sublist (List.take_sublist _ _) (pairwise_sortDescBy _ _)

/-- Every candidate string is a cleaned span text, is not a custom stop
word, and is not all digits. -/
theorem mem_potential_keywords (doc : Doc) (x : String)
    (h : x ∈ potential_keywords doc) :
    (∃ s, x = cleanText s) ∧ CUSTOM_STOP_WORDS.contains x = false
      ∧ pyIsDigit x = false := by
  rw [potential_keywords, List.mem_append] at h
  rcases h with h | h
  · obtain ⟨c, hc, hcx⟩ := List.mem_map.mp h
    have hacc := (List.mem_filter.mp hc).2
    rw [chunkAccepted] at hacc
    simp only [Bool.and_eq_true, Bool.not_eq_true'] at hacc
    rw [← hcx]
    exact ⟨⟨c.text, rfl⟩, hacc.1.1.2, hacc.1.2⟩
  · obtain ⟨e, he, hex⟩ := List.mem_map.mp h
    have hacc := (List.mem_filter.mp he).2
    rw [entAccepted] at hacc
    simp only [Bool.and_eq_true, Bool.not_eq_true'] at hacc
    rw [← hex]
    exact ⟨⟨e.text, rfl⟩, hacc.2.1.2, hacc.2.2⟩

/-! ### Route-level lemmas -/

/-- Missing `text` key: the route answers 400 with the missing-field body. -/
theorem analyze_missing (nlp : String → Except String Doc)
    (payload : List (String × PyValue))
    (h : payload.lookup "text" = none) :
    analyze_text_route nlp payload =
      .error 400 "Missing 'text' in JSON payload" := by
  rw [analyze_text_route, h]

/-- Invalid `text` value (non-string, empty, or trimming below 50
characters): the route answers 400 with the invalid-text body. -/
theorem analyze_invalid (nlp : String → Except String Doc)
    (payload : List (String × PyValue)) (v : PyValue)
    (hl : payload.lookup "text" = some v)
    (hinv : v.isStr = false ∨ v = .pyStr ""
      ∨ ∃ s, v = .pyStr s ∧ (pyStrip s).length < 50) :
    analyze_text_route nlp payload =
      .error 400 "Text is too short or invalid." := by
  rw [analyze_text_route, hl]
  have hc : (!v.truthy || !v.isStr
      || decide ((pyStrip v.getStr).length < 50)) = true := by
    rcases hinv with h | h | ⟨s, hs, hlen⟩
    · simp [h]
    · subst h; simp [PyValue.truthy]
    · subst hs
      simp [PyValue.truthy, PyValue.isStr, PyValue.getStr]
      omega
  dsimp only
  rw [if_pos hc]

/-- Valid text, pipeline succeeds, non-empty candidate pool: the route
answers 200 with the ranked unique top keywords and no message. -/
theorem analyze_ok (nlp : String → Except String Doc)
    (payload : List (String × PyValue)) (s : String) (doc : Doc)
    (hl : payload.lookup "text" = some (.pyStr s))
    (hne : s ≠ "") (hlen : 50 ≤ (pyStrip s).length)
    (hnlp : nlp s = .ok doc) (hpk : potential_keywords doc ≠ []) :
    analyze_text_route nlp payload =
      .keywords (unique_top_keywords (potential_keywords doc)) none := by
  rw [analyze_text_route, hl]
  have h1 : (PyValue.pyStr s).truthy = true := by
    simp [PyValue.truthy, hne]
  have h3 : decide ((pyStrip s).length < 50) = false := by
    simp
    omega
  simp only [h1, PyValue.isStr, PyValue.getStr, h3, Bool.not_true, Bool.or_false,
    Bool.false_or, Bool.or_self, if_false, Bool.false_eq_true]
  rw [hnlp]
  have hpk2 : (potential_keywords doc).isEmpty = false := by
    simpa [List.isEmpty_iff] using hpk
  have hut : (unique_top_keywords (potential_keywords doc)).isEmpty = false := by
    simpa [List.isEmpty_iff] using unique_top_keywords_ne_nil _ hpk
  simp only [hpk2, hut, Bool.false_eq_true, if_false]

/-- Valid text, pipeline succeeds, empty candidate pool: the route answers
200 with an empty list and the no-keywords message. -/
theorem analyze_empty (nlp : String → Except String Doc)
    (payload : List (String × PyValue)) (s : String) (doc : Doc)
    (hl : payload.lookup "text" = some (.pyStr s))
    (hne : s ≠ "") (hlen : 50 ≤ (pyStrip s).length)
    (hnlp : nlp s = .ok doc) (hpk : potential_keywords doc = []) :
    analyze_text_route nlp payload =
      .keywords [] (some "No significant keywords found after NLP processing.") := by
  rw [analyze_text_route, hl]
  have h1 : (PyValue.pyStr s).truthy = true := by
    simp [PyValue.truthy, hne]
  have h3 : decide ((pyStrip s).length < 50) = false := by
    simp
    omega
  simp only [h1, PyValue.isStr, PyValue.getStr, h3, Bool.not_true, Bool.or_false,
    Bool.false_or, Bool.or_self, if_false, Bool.false_eq_true]
  rw [hnlp]
  have hpk2 : (potential_keywords doc).isEmpty = true := by
    simp [hpk]
  simp only [hpk2, if_true]

/-- Valid text, pipeline raises: the route answers 500 with the generic
internal-error body carrying the exception message. -/
theorem analyze_pipeline_error (nlp : String → Except String Doc)
    (payload : List (String × PyValue)) (s : String) (e : String)
    (hl : payload.lookup "text" = some (.pyStr s))
    (hne : s ≠ "") (hlen : 50 ≤ (pyStrip s).length)
    (hnlp : nlp s = .error e) :
    analyze_text_route nlp payload =
      .error 500 ("An internal error occurred during analysis: " ++ e) := by
  rw [analyze_text_route, hl]
  have h1 : (PyValue.pyStr s).truthy = true := by
    simp [PyValue.truthy, hne]
  have h3 : decide ((pyStrip s).length < 50) = false := by
    simp
    omega
  simp only [h1, PyValue.isStr, PyValue.getStr, h3, Bool.not_true, Bool.or_false,
    Bool.false_or, Bool.or_self, if_false, Bool.false_eq_true]
  rw [hnlp]

/-- Whenever the route answers with a keyword list, that list is either
empty or the ranked unique top keywords of some document's candidates. -/
theorem analyze_keywords_cases (nlp : String → Except String Doc)
    (payload : List (String × PyValue)) (kws : List String) (msg : Option String)
    (h : analyze_text_route nlp payload = .keywords kws msg) :
    kws = [] ∨ ∃ doc : Doc, kws = unique_top_keywords (potential_keywords doc) := by
  unfold analyze_text_route at h
  split at h
  · cases h
  · split at h
    · cases h
    · split at h
      · cases h
      · rename_i doc hdoc
        dsimp only at h
        split at h
        · cases h; exact Or.inl rfl
        · split at h
          · cases h; exact Or.inl rfl
          · cases h
            exact Or.inr ⟨doc, rfl⟩

/-- The second empty-result branch of the ranker cannot fire: the route
never produces its response. -/
theorem analyze_ne_unreachable (nlp : String → Except String Doc)
    (payload : List (String × PyValue)) :
    analyze_text_route nlp payload ≠
      .keywords [] (some "Keywords found but did not meet frequency or uniqueness criteria.") := by
  intro h
  unfold analyze_text_route at h
  split at h
  · cases h
  · split at h
    · cases h
    · split at h
      · cases h
      · rename_i doc hdoc
        dsimp only at h
        split at h
        · injection h with h1 h2
          injection h2 with h3
          exact absurd h3 (by decide)
        · rename_i hpk
          split at h
          · rename_i hut
            have hpk2 : potential_keywords doc ≠ [] := by
              simpa [List.isEmpty_iff] using hpk
            have hut2 : unique_top_keywords (potential_keywords doc) = [] := by
              simpa [List.isEmpty_iff] using hut
            exact unique_top_keywords_ne_nil _ hpk2 hut2
          · injection h with h1 h2
            cases h2

/-! ### Claim theorems -/

/-- The candidate pool of the C1 scenario: "microsoft" three times (one
noun chunk, two ORG entities) and "cloud computing" twice, no stop-word
overlap. -/
def c1Doc : Doc :=
  ⟨[⟨"Microsoft", [⟨false, false, false⟩]⟩,
    ⟨"cloud computing", [⟨false, false, false⟩]⟩,
    ⟨"cloud computing", [⟨false, false, false⟩]⟩],
   [⟨"Microsoft", "ORG"⟩, ⟨"Microsoft", "ORG"⟩]⟩

/-- An input text of the C1 scenario, at least 50 characters long. -/
def c1Text : String :=
  "Microsoft leads cloud computing; Microsoft and Microsoft love cloud computing."

/-- C1: on every valid request whose candidate list is non-empty the route
returns the ranked unique top keywords, ordered by occurrence count in
non-increasing order; and on a candidate pool holding "microsoft" 3 times
and "cloud computing" twice, both strings appear in the output and
"microsoft" is ranked at or above "cloud computing". -/
theorem analyze_ranked_by_count :
    (∀ (nlp : String → Except String Doc) (payload : List (String × PyValue))
        (s : String) (doc : Doc),
      payload.lookup "text" = some (.pyStr s) → s ≠ "" →
      50 ≤ (pyStrip s).length → nlp s = .ok doc →
      potential_keywords doc ≠ [] →
      analyze_text_route nlp payload =
          .keywords (unique_top_keywords (potential_keywords doc)) none ∧
        (unique_top_keywords (potential_keywords doc)).Pairwise
          (fun a b => countOcc (potential_keywords doc) b
            ≤ countOcc (potential_keywords doc) a)) ∧
    (countOcc (potential_keywords c1Doc) "microsoft" = 3 ∧
     countOcc (potential_keywords c1Doc) "cloud computing" = 2 ∧
     analyze_text_route (fun _ => .ok c1Doc) [("text", .pyStr c1Text)] =
       .keywords ["microsoft", "cloud computing"] none ∧
     "microsoft" ∈ unique_top_keywords (potential_keywords c1Doc) ∧
     "cloud computing" ∈ unique_top_keywords (potential_keywords c1Doc) ∧
     (unique_top_keywords (potential_keywords c1Doc)).indexOf "microsoft"
       ≤ (unique_top_keywords (potential_keywords c1Doc)).indexOf "cloud computing") := by
  constructor
  · intro nlp payload s doc hl hne hlen hnlp hpk
    exact ⟨analyze_ok nlp payload s doc hl hne hlen hnlp hpk,
      pairwise_unique_top_keywords _⟩
  · decide

/-- Witness for C1: the universal part applied to the concrete scenario
request. -/
theorem analyze_ranked_by_count_witness :
    analyze_text_route (fun _ => .ok c1Doc) [("text", .pyStr c1Text)] =
        .keywords (unique_top_keywords (potential_keywords c1Doc)) none ∧
      (unique_top_keywords (potential_keywords c1Doc)).Pairwise
        (fun a b => countOcc (potential_keywords c1Doc) b
          ≤ countOcc (potential_keywords c1Doc) a) :=
  analyze_ranked_by_count.1 (fun _ => .ok c1Doc) [("text", .pyStr c1Text)]
    c1Text c1Doc (by decide) (by decide) (by decide) rfl (by decide)

/-- C2: whenever the route returns a keyword list, it has at most 7 entries
(hence between 0 and 7) and its entries are pairwise distinct even after
lowercasing. -/
theorem analyze_output_size_and_distinct (nlp : String → Except String Doc)
    (payload : List (String × PyValue)) (kws : List String) (msg : Option String)
    (h : analyze_text_route nlp payload = .keywords kws msg) :
    kws.length ≤ 7 ∧ kws.Pairwise (fun a b => pyLower a ≠ pyLower b) := by
  rcases analyze_keywords_cases nlp payload kws msg h with h0 | ⟨doc, hdoc⟩
  · subst h0
    exact ⟨by simp, List.Pairwise.nil⟩
  · subst hdoc
    refine ⟨length_unique_top_keywords_le _, ?_⟩
    have hnd := nodup_unique_top_keywords (potential_keywords doc)
    have hfix : ∀ x ∈ unique_top_keywords (potential_keywords doc), pyLower x = x := by
      intro x hx
      obtain ⟨⟨s, hs⟩, _, _⟩ :=
        mem_potential_keywords doc x (mem_unique_top_keywords _ x hx)
      rw [hs, pyLower_cleanText]
    exact List.Pairwise.imp_of_mem
      (fun ha hb hne => by rw [hfix _ ha, hfix _ hb]; exact hne) hnd

/-- Witness for C2: a concrete run returning one keyword. -/
theorem analyze_output_size_and_distinct_witness :
    (["data science"] : List String).length ≤ 7 ∧
      (["data science"] : List String).Pairwise
        (fun a b => pyLower a ≠ pyLower b) :=
  analyze_output_size_and_distinct
    (fun _ => .ok ⟨[⟨"data science", [⟨false, false, false⟩]⟩], []⟩)
    [("text", .pyStr "Data science is a field that keeps growing year after year.")]
    ["data science"] none (by decide)

/-- C3: a noun-phrase span is kept as a candidate iff its cleaned text is
longer than 3 characters, is not a custom stop word, is not all digits, and
some constituent token is neither a pipeline stop word nor punctuation nor
whitespace. -/
theorem noun_chunk_acceptance_iff (c : NounChunk) :
    chunkAccepted c = true ↔
      (3 < (cleanText c.text).length ∧
       cleanText c.text ∉ CUSTOM_STOP_WORDS ∧
       pyIsDigit (cleanText c.text) = false ∧
       ∃ t ∈ c.tokens, t.is_stop = false ∧ t.is_punct = false ∧ t.is_space = false) := by
  rw [chunkAccepted]
  simp [is_meaningful, and_assoc]

/-- Witness for C3: a concrete accepted chunk, via the right-to-left
direction. -/
theorem noun_chunk_acceptance_iff_witness :
    chunkAccepted ⟨"Artificial Intelligence", [⟨false, false, false⟩]⟩ = true :=
  (noun_chunk_acceptance_iff ⟨"Artificial Intelligence", [⟨false, false, false⟩]⟩).mpr
    (by decide)

/-- C4: an entity span is kept as a candidate iff its label is in the fixed
relevant-label set and its cleaned text is longer than 2 characters, is not
a custom stop word and is not all digits. -/
theorem entity_acceptance_iff (e : SpacyEnt) :
    entAccepted e = true ↔
      (e.label ∈ relevant_entity_labels ∧
       2 < (cleanText e.text).length ∧
       cleanText e.text ∉ CUSTOM_STOP_WORDS ∧
       pyIsDigit (cleanText e.text) = false) := by
  rw [entAccepted]
  simp [and_assoc]

/-- Witness for C4: a concrete accepted entity, via the right-to-left
direction. -/
theorem entity_acceptance_iff_witness :
    entAccepted ⟨"OpenAI", "ORG"⟩ = true :=
  (entity_acceptance_iff ⟨"OpenAI", "ORG"⟩).mpr (by decide)

/-- C5: a payload without a `text` key is answered with HTTP 400 and the
exact missing-field error body. -/
theorem missing_text_field_400 (nlp : String → Except String Doc)
    (payload : List (String × PyValue))
    (h : payload.lookup "text" = none) :
    analyze_text_route nlp payload =
      .error 400 "Missing 'text' in JSON payload" :=
  analyze_missing nlp payload h

/-- Witness for C5: a concrete payload with no `text` key. -/
theorem missing_text_field_400_witness :
    analyze_text_route (fun _ => .ok ⟨[], []⟩) [("url", .pyStr "x")] =
      .error 400 "Missing 'text' in JSON payload" :=
  missing_text_field_400 (fun _ => .ok ⟨[], []⟩) [("url", .pyStr "x")] (by decide)

/-- C6: a `text` value that is not a string, or the empty string, or a
string trimming to fewer than 50 characters, is answered with HTTP 400 and
the exact invalid-text error body. -/
theorem invalid_text_400 (nlp : String → Except String Doc)
    (payload : List (String × PyValue)) (v : PyValue)
    (hl : payload.lookup "text" = some v)
    (hinv : v.isStr = false ∨ v = .pyStr ""
      ∨ ∃ s, v = .pyStr s ∧ (pyStrip s).length < 50) :
    analyze_text_route nlp payload =
      .error 400 "Text is too short or invalid." :=
  analyze_invalid nlp payload v hl hinv

/-- Witness for C6: a concrete payload whose `text` is a number. -/
theorem invalid_text_400_witness :
    analyze_text_route (fun _ => .ok ⟨[], []⟩) [("text", .pyInt 42)] =
      .error 400 "Text is too short or invalid." :=
  invalid_text_400 (fun _ => .ok ⟨[], []⟩) [("text", .pyInt 42)] (.pyInt 42)
    (by decide) (Or.inl rfl)

/-- C7: the route is deterministic — two invocations on the same pipeline
and the same payload return the same response, so keyword lists and their
order (including tie order among equal counts) coincide. -/
theorem analyze_idempotent (nlp1 nlp2 : String → Except String Doc)
    (payload1 payload2 : List (String × PyValue))
    (h1 : nlp1 = nlp2) (h2 : payload1 = payload2) :
    analyze_text_route nlp1 payload1 = analyze_text_route nlp2 payload2 := by
  rw [h1, h2]

/-- Witness for C7: two identical concrete invocations. -/
theorem analyze_idempotent_witness :
    analyze_text_route (fun _ => .ok ⟨[], []⟩) [("text", .pyStr "t")] =
      analyze_text_route (fun _ => .ok ⟨[], []⟩) [("text", .pyStr "t")] :=
  analyze_idempotent (fun _ => .ok ⟨[], []⟩) (fun _ => .ok ⟨[], []⟩)
    [("text", .pyStr "t")] [("text", .pyStr "t")] rfl rfl

/-- C8: when the pipeline raises on a validated request, the route catches
the exception and answers HTTP 500 with the generic internal-error body
carrying only the exception message. -/
theorem pipeline_failure_500 (nlp : String → Except String Doc)
    (payload : List (String × PyValue)) (s : String) (e : String)
    (hl : payload.lookup "text" = some (.pyStr s))
    (hne : s ≠ "") (hlen : 50 ≤ (pyStrip s).length)
    (hnlp : nlp s = .error e) :
    analyze_text_route nlp payload =
      .error 500 ("An internal error occurred during analysis: " ++ e) :=
  analyze_pipeline_error nlp payload s e hl hne hlen hnlp

/-- Witness for C8: a concrete validated request whose pipeline raises. -/
theorem pipeline_failure_500_witness :
    analyze_text_route (fun _ => .error "model load failure")
      [("text", .pyStr "This request body is certainly long enough to pass validation checks.")] =
      .error 500 ("An internal error occurred during analysis: " ++ "model load failure") :=
  pipeline_failure_500 (fun _ => .error "model load failure")
    [("text", .pyStr "This request body is certainly long enough to pass validation checks.")]
    "This request body is certainly long enough to pass validation checks."
    "model load failure" (by decide) (by decide) (by decide) rfl

/-- Counterexample for C9: the noun phrase "The page" normalizes to
"the page" (not to "page" — only leading and trailing punctuation and
whitespace are stripped), the result is not a stop-word entry, the chunk is
accepted, and the route returns "the page" as a keyword instead of
excluding it. -/
theorem the_page_not_excluded_counterexample :
    cleanText "The page" = "the page" ∧
    cleanText "The page" ≠ "page" ∧
    "page" ∈ CUSTOM_STOP_WORDS ∧
    "the page" ∉ CUSTOM_STOP_WORDS ∧
    chunkAccepted ⟨"The page", [⟨true, false, false⟩, ⟨false, false, false⟩]⟩ = true ∧
    analyze_text_route
      (fun _ => .ok ⟨[⟨"The page", [⟨true, false, false⟩, ⟨false, false, false⟩]⟩], []⟩)
      [("text", .pyStr "The page is nice etc. The page is nice etc. The page is nice.")]
      = .keywords ["the page"] none := by
  decide

/-- C9 (amended): no returned keyword equals a custom stop-word entry and
no returned keyword is all digits; but the noun phrase "The page" is kept
(its normalization is "the page", not the stop-word entry "page"). -/
theorem stopword_digit_exclusion :
    (∀ (nlp : String → Except String Doc) (payload : List (String × PyValue))
        (kws : List String) (msg : Option String),
      analyze_text_route nlp payload = .keywords kws msg →
      ∀ kw ∈ kws, kw ∉ CUSTOM_STOP_WORDS ∧ pyIsDigit kw = false) ∧
    chunkAccepted ⟨"The page", [⟨true, false, false⟩, ⟨false, false, false⟩]⟩ = true := by
  constructor
  · intro nlp payload kws msg h kw hkw
    rcases analyze_keywords_cases nlp payload kws msg h with h0 | ⟨doc, hdoc⟩
    · subst h0; cases hkw
    · subst hdoc
      obtain ⟨_, hsw, hdig⟩ :=
        mem_potential_keywords doc kw (mem_unique_top_keywords _ kw hkw)
      exact ⟨by simpa using hsw, hdig⟩
  · decide

/-- Witness for C9: the universal part applied to a concrete run. -/
theorem stopword_digit_exclusion_witness :
    "the page" ∉ CUSTOM_STOP_WORDS ∧ pyIsDigit "the page" = false :=
  stopword_digit_exclusion.1
    (fun _ => .ok ⟨[⟨"The page", [⟨true, false, false⟩, ⟨false, false, false⟩]⟩], []⟩)
    [("text", .pyStr "The page is nice etc. The page is nice etc. The page is nice.")]
    ["the page"] none (by decide) "the page" (by decide)

/-- C10: a non-empty candidate list always yields a non-empty final keyword
list, so the branch returning the "Keywords found but did not meet
frequency or uniqueness criteria." body is unreachable; the only reachable
empty-result response is the "No significant keywords found after NLP
processing." one, taken exactly when the candidate list is empty. -/
theorem empty_branch_unreachable :
    (∀ l : List String, l ≠ [] → unique_top_keywords l ≠ []) ∧
    (∀ (nlp : String → Except String Doc) (payload : List (String × PyValue)),
      analyze_text_route nlp payload ≠
        .keywords [] (some "Keywords found but did not meet frequency or uniqueness criteria.")) ∧
    (∀ (nlp : String → Except String Doc) (payload : List (String × PyValue))
        (s : String) (doc : Doc),
      payload.lookup "text" = some (.pyStr s) → s ≠ "" →
      50 ≤ (pyStrip s).length → nlp s = .ok doc →
      potential_keywords doc = [] →
      analyze_text_route nlp payload =
        .keywords [] (some "No significant keywords found after NLP processing.")) :=
  ⟨unique_top_keywords_ne_nil, analyze_ne_unreachable, analyze_empty⟩

/-- Witness for C10: the three parts applied to concrete inputs. -/
theorem empty_branch_unreachable_witness :
    unique_top_keywords ["data science"] ≠ [] ∧
    analyze_text_route (fun _ => .ok ⟨[], []⟩) [] ≠
      .keywords [] (some "Keywords found but did not meet frequency or uniqueness criteria.") ∧
    analyze_text_route (fun _ => .ok ⟨[], []⟩)
      [("text", .pyStr "This text is long enough to pass the fifty character validation.")] =
      .keywords [] (some "No significant keywords found after NLP processing.") :=
  ⟨empty_branch_unreachable.1 ["data science"] (by decide),
   empty_branch_unreachable.2.1 (fun _ => .ok ⟨[], []⟩) [],
   empty_branch_unreachable.2.2 (fun _ => .ok ⟨[], []⟩)
     [("text", .pyStr "This text is long enough to pass the fifty character validation.")]
     "This text is long enough to pass the fifty character validation."
     ⟨[], []⟩ (by decide) (by decide) (by decide) rfl rfl⟩

end WebTopic
